import Mathlib

/-!
Verification of the driver-trip-tracker frontend and of the spec-modelled
duty-schedule engine fragments. Numbers are modelled as rationals; JavaScript
`null`/`undefined` becomes `Option`; JavaScript truthiness of `x || d` is
modelled explicitly (`0` and the empty string are falsy).
-/

/-- JavaScript `v || 0` on a possibly-missing number: `null`/`undefined`
and `NaN` (modelled as `none`) and the falsy value `0` all yield `0`. -/
def jsOrZero (v : Option ℚ) : ℚ :=
  match v with
  | none => 0
  | some q => if q = 0 then 0 else q

/-- JavaScript `s || d` on a possibly-missing string: `null`/`undefined`
(`none`) and the falsy empty string yield the default `d`. -/
def jsOrStr (v : Option String) (d : String) : String :=
  match v with
  | none => d
  | some s => if s = "" then d else s

/- ## TripForm (src/frontend/src/components/TripForm.js) -/

/-- The `current_cycle_used` input of `TripForm`: `type="number"`,
`min="0"`, `max="70"`, `step="0.5"`, `required`. `none` models an empty or
unparsable field. Browser constraint validation must pass before the form's
submit handler runs: the value must be present, within `[min, max]`, and an
integral multiple of the step from the min. -/
def cycleInputValid (v : Option ℚ) : Bool :=
  match v with
  | none => false
  | some q => decide (0 ≤ q) && decide (q ≤ 70) && ((2 * q).den == 1)

/-- `handleSubmit` of `TripForm` builds the request's `current_cycle_used`
as `parseFloat(formData.current_cycle_used) || 0`. -/
def submittedCycleUsed (v : Option ℚ) : ℚ :=
  jsOrZero v

/- ## App (src/frontend/src/App.js) -/

/-- A waypoint of the route payload as the frontend consumes it. -/
structure Waypoint where
  label : String
  lat : ℚ
  lon : ℚ
  display_name : String
deriving Repr, DecidableEq

/-- A leg of `route.legs` with the fields `RouteMap` actually reads:
`from_location`, `to_location`, `distance_meters`, `duration_seconds`. -/
structure RouteLeg where
  from_location : String
  to_location : String
  distance_meters : ℚ
  duration_seconds : ℚ
deriving Repr, DecidableEq

/-- Duty status enumeration (the four response status strings). -/
inductive DutyStatus
  | off_duty
  | sleeper_berth
  | driving
  | on_duty
deriving Repr, DecidableEq

/-- A duty event of a day's `events` array. -/
structure DutyEvent where
  time : ℚ
  status : DutyStatus
  location : String
  remark : String
deriving Repr, DecidableEq

/-- The day totals object of a `DaySchedule`, keyed by the four status
strings; a field is `none` when the key is missing from the JSON object. -/
structure TotalsJson where
  off_duty : Option ℚ
  sleeper_berth : Option ℚ
  driving : Option ℚ
  on_duty : Option ℚ
deriving Repr, DecidableEq

/-- A `schedule` entry as the viewer consumes it. -/
structure DayScheduleJson where
  day : ℕ
  date_offset : ℕ
  events : List DutyEvent
  totals : TotalsJson
deriving Repr, DecidableEq

/-- A `logs` entry as the viewer consumes it. -/
structure LogEntry where
  day : ℕ
  date_offset : ℕ
  image_base64 : String
deriving Repr, DecidableEq

/-- The full trip-planning response body. -/
structure PlanResponse where
  waypoints : List Waypoint
  legs : List RouteLeg
  total_distance_miles : ℚ
  total_duration_hours : ℚ
  schedule : List DayScheduleJson
  logs : List LogEntry
deriving Repr, DecidableEq

/-- A rejected `planTrip` promise: optional `response.data.error` payload
and optional `message`. -/
structure JsError where
  responseDataError : Option String
  message : Option String
deriving Repr, DecidableEq

/-- The error message App derives from a failed call:
`err?.response?.data?.error || err?.message || 'An unexpected error occurred. Please try again.'`. -/
def appErrorMessage (e : JsError) : String :=
  jsOrStr e.responseDataError
    (jsOrStr e.message "An unexpected error occurred. Please try again.")

/-- The `error` and `result` React states of `App`. -/
structure AppState where
  error : Option String
  result : Option PlanResponse
deriving Repr, DecidableEq

/-- `App.handleSubmit`: clears both states, awaits `planTrip`, then either
stores the response in `result` or a derived message in `error`. The value
returned is the state after the handler completes. -/
def handleSubmitFinal (outcome : Except JsError PlanResponse) : AppState :=
  match outcome with
  | .ok data => { error := none, result := some data }
  | .error err => { error := some (appErrorMessage err), result := none }

/- ## ELDLogViewer (src/frontend/src/components/ELDLogViewer.js) -/

/-- `formatHours`: whole-hours component `Math.floor(h)`. -/
def formatHoursHrs (h : ℚ) : ℤ :=
  ⌊h⌋

/-- JavaScript `Math.round`: round half toward positive infinity. -/
def jsRound (x : ℚ) : ℤ :=
  ⌊x + 1 / 2⌋

/-- `formatHours`: minutes component `Math.round((h - hrs) * 60)`. -/
def formatHoursMins (h : ℚ) : ℤ :=
  jsRound ((h - formatHoursHrs h) * 60)

/-- A row of the expanded per-day event table: for event `i`,
`endTime = events[i+1] ? events[i+1].time : 24` and
`duration = endTime - ev.time`. -/
structure EventRow where
  time : ℚ
  endTime : ℚ
  duration : ℚ
deriving Repr, DecidableEq

/-- The rows the `DaySchedule` component maps `day.events` to. -/
def dayRows : List DutyEvent → List EventRow
  | [] => []
  | [e] => [⟨e.time, 24, 24 - e.time⟩]
  | e :: e2 :: rest => ⟨e.time, e2.time, e2.time - e.time⟩ :: dayRows (e2 :: rest)

/-- The viewer's bottom summary figure:
`(currentSchedule.totals.driving || 0) + (currentSchedule.totals.on_duty || 0)`. -/
def totalOnDutyDisplayed (t : TotalsJson) : ℚ :=
  jsOrZero t.driving + jsOrZero t.on_duty

/-- What `ELDLogViewer` shows when it renders at all. -/
structure ViewerView where
  sheetCount : ℕ
  currentLog : LogEntry
deriving Repr, DecidableEq

/-- `ELDLogViewer` body at a given `activeDay`:
`if (!logs || logs.length === 0) return null;` then displays
`logs[activeDay]`. -/
def eldLogViewer (logs : Option (List LogEntry)) (activeDay : ℕ) :
    Option ViewerView :=
  match logs with
  | none => none
  | some l =>
    if l.length = 0 then none
    else (l.get? activeDay).map (fun cur => ⟨l.length, cur⟩)

/-- The initial render: `useState(0)` seeds `activeDay` with `0`. -/
def eldLogViewerInitial (logs : Option (List LogEntry)) : Option ViewerView :=
  eldLogViewer logs 0

/- ## RouteMap (src/frontend/src/components/RouteMap.js) -/

/-- The miles figure of a leg row: `leg.distance_meters / 1609.34`. -/
def legDetailMiles (l : RouteLeg) : ℚ :=
  l.distance_meters / (160934 / 100)

/-- The hours figure of a leg row: `leg.duration_seconds / 3600`. -/
def legDetailHours (l : RouteLeg) : ℚ :=
  l.duration_seconds / 3600

/- ## Log renderer pixel mapping (README, embedded after App.test.js) -/

/-- The documented time-to-X mapping `x = 56 + (hour / 24) × 435`. -/
def timeToX (hour : ℚ) : ℚ :=
  56 + hour / 24 * 435

/- ## Day Splitter totals (spec §4.2; backend/trips/utils/hos_calculator.py
is not under src/, so this is modelled from the spec) -/

/-- Modelled from the spec: the Day Splitter's per-event durations
(`hos_calculator.py` is not in the sources). Each day's totals sum the
duration of every event in that day; an event runs until the next event's
time, and the day's last event extends to `24.0` (a short final day is
padded to a full 24-hour day). Produces `(status, duration)` pairs. -/
def eventDurations : List DutyEvent → List (DutyStatus × ℚ)
  | [] => []
  | [e] => [(e.status, 24 - e.time)]
  | e :: e2 :: rest => (e.status, e2.time - e.time) :: eventDurations (e2 :: rest)

/-- Modelled from the spec: a day's cumulative hours for one duty status —
the sum of the durations of that day's events carrying the status. -/
def dayTotal (evs : List DutyEvent) (s : DutyStatus) : ℚ :=
  (((eventDurations evs).filter (fun p => p.1 = s)).map (fun p => p.2)).sum

/-- The sum of the four `DayTotals` values of one day. -/
def dayTotalsSum (evs : List DutyEvent) : ℚ :=
  dayTotal evs .off_duty + dayTotal evs .sleeper_berth +
    dayTotal evs .driving + dayTotal evs .on_duty

/- ## Engine break insertion (spec §4.1; backend/trips/utils/hos_calculator.py
is not under src/, so this is modelled from the spec) -/

/-- An engine timeline event relevant to the 8-hour break rule: a driving
stretch of `d` hours, or an off-duty block of `d` hours. -/
inductive HosEv
  | driving (d : ℚ)
  | offDuty (d : ℚ)
deriving Repr, DecidableEq

/-- Modelled from the spec: the Engine's driving loop for a leg when
`driving_since_break_hours` is `0` (`hos_calculator.py` is not in the
sources). Drives until the leg is exhausted; whenever the counter reaches
`8.0` with driving left, the driving event is split, a `0.5`-hour OffDuty
break is inserted, and driving resumes with the counter reset to `0`. -/
def driveFromZero (remaining : ℚ) : List HosEv :=
  if h0 : remaining ≤ 0 then []
  else if h8 : remaining ≤ 8 then [.driving remaining]
  else .driving 8 :: .offDuty (1 / 2) :: driveFromZero (remaining - 8)
termination_by (⌈remaining⌉₊ : ℕ)
decreasing_by
  have hgt : (8 : ℚ) < remaining := lt_of_not_ge h8
  have h9 : 9 ≤ ⌈remaining⌉₊ := by
    have : ((8 : ℕ) : ℚ) < remaining := by exact_mod_cast hgt
    have := Nat.lt_ceil.mpr this
    omega
  have hle : ⌈remaining - 8⌉₊ ≤ ⌈remaining⌉₊ - 8 := by
    apply Nat.ceil_le.mpr
    have : (↑(⌈remaining⌉₊ - 8) : ℚ) = (⌈remaining⌉₊ : ℚ) - 8 := by
      push_cast [Nat.cast_sub (by omega : 8 ≤ ⌈remaining⌉₊)]
      ring
    rw [this]
    have := Nat.le_ceil remaining
    linarith
  omega

/-- Modelled from the spec: driving a leg of `remaining` hours starting
with `driving_since_break_hours = sinceBreak`. If the available time before
the break (`8 - sinceBreak`) is already exhausted, the break comes first;
if the leg fits in it, a single driving event is emitted; otherwise the
driving event is split at the `8.0`-hour mark, the `0.5`-hour break
inserted, and the loop continues with the counter reset to `0`. -/
def driveLeg (sinceBreak remaining : ℚ) : List HosEv :=
  if remaining ≤ 0 then []
  else if 8 - sinceBreak ≤ 0 then .offDuty (1 / 2) :: driveFromZero remaining
  else if remaining ≤ 8 - sinceBreak then [.driving remaining]
  else .driving (8 - sinceBreak) :: .offDuty (1 / 2) ::
    driveFromZero (remaining - (8 - sinceBreak))

/-- The engine counters the break rule touches:
`driving_since_break_hours` and `driving_this_shift_hours`. -/
structure BreakState where
  sinceBreak : ℚ
  shiftDrive : ℚ
deriving Repr, DecidableEq

/-- Modelled from the spec: how one timeline event updates the counters —
driving advances both in lockstep; an off-duty break resets
`driving_since_break_hours` to `0` and leaves `driving_this_shift_hours`
unchanged. -/
def stepState (st : BreakState) : HosEv → BreakState
  | .driving d => ⟨st.sinceBreak + d, st.shiftDrive + d⟩
  | .offDuty _ => ⟨0, st.shiftDrive⟩

/-- Running the counters over a timeline. -/
def runState (st : BreakState) (evs : List HosEv) : BreakState :=
  evs.foldl stepState st

/-- The spec's testable property: scanning a timeline with `acc` hours
already driven since the last qualifying break, no cumulative driving run
may exceed `8.0` hours; an off-duty block of at least `0.5` hours resets
the run, a shorter one does not. -/
def runsBounded (acc : ℚ) : List HosEv → Bool
  | [] => true
  | .driving d :: rest => decide (acc + d ≤ 8) && runsBounded (acc + d) rest
  | .offDuty d :: rest =>
    if 1 / 2 ≤ d then runsBounded 0 rest else runsBounded acc rest

/-- Total driving hours of a timeline. -/
def totalDriving : List HosEv → ℚ
  | [] => 0
  | .driving d :: rest => d + totalDriving rest
  | .offDuty _ :: rest => totalDriving rest

/- ## Theorems -/

/-- C1: for every submission of the trip form, the `current_cycle_used`
value included in the trip-planning request lies in `[0, 70]`: the input's
browser constraint validation (`min="0"`, `max="70"`, `required`) blocks
the submit for any out-of-range entry, and `handleSubmit`'s
`parseFloat(...) || 0` keeps an in-range value in range. -/
theorem tripForm_submitted_cycle_in_range (v : Option ℚ)
    (h : cycleInputValid v = true) :
    0 ≤ submittedCycleUsed v ∧ submittedCycleUsed v ≤ 70 := by
  match v with
  | none => simp [cycleInputValid] at h
  | some q =>
    simp only [cycleInputValid, Bool.and_eq_true, decide_eq_true_eq] at h
    obtain ⟨⟨h0, h70⟩, -⟩ := h
    simp only [submittedCycleUsed, jsOrZero]
    split
    · exact ⟨le_refl 0, by norm_num⟩
    · exact ⟨h0, h70⟩

/-- Witness for C1 at the concrete entry `36`. -/
theorem tripForm_submitted_cycle_in_range_witness :
    cycleInputValid (some 36) = true ∧
      (0 ≤ submittedCycleUsed (some 36) ∧ submittedCycleUsed (some 36) ≤ 70) :=
  ⟨by norm_num [cycleInputValid],
    tripForm_submitted_cycle_in_range (some 36) (by norm_num [cycleInputValid])⟩

/-- C2: after `App.handleSubmit` completes, exactly one of `error` and
`result` is non-null: a successful `planTrip` call stores the full response
with `error = null`, a failed call stores a derived message with
`result = null`. -/
theorem app_state_exclusive (o : Except JsError PlanResponse) :
    ((handleSubmitFinal o).result.isSome ↔ (handleSubmitFinal o).error = none) ∧
    ((∃ d, o = .ok d ∧ handleSubmitFinal o = ⟨none, some d⟩) ∨
      (∃ e, o = .error e ∧
        handleSubmitFinal o = ⟨some (appErrorMessage e), none⟩)) := by
  cases o <;> simp [handleSubmitFinal]

/-- C5 counterexample: the documented formula disagrees with the
documented noon sample — `x(12) = 273.5`, not `273`. -/
theorem timeToX_noon_sample_false : timeToX 12 ≠ 273 := by
  norm_num [timeToX]

/-- C5 (amended): the mapping satisfies `x(0) = 56` and `x(24) = 491` and
stays within `[56, 491]` on `[0, 24]`; at noon it yields `273.5`, whose
integer part is the documented sample `273`. -/
theorem timeToX_endpoints :
    timeToX 0 = 56 ∧ timeToX 24 = 491 ∧ timeToX 12 = 547 / 2 ∧
      ⌊timeToX 12⌋ = 273 ∧
      ∀ h : ℚ, 0 ≤ h → h ≤ 24 → 56 ≤ timeToX h ∧ timeToX h ≤ 491 := by
  refine ⟨by norm_num [timeToX], by norm_num [timeToX], by norm_num [timeToX],
    ?_, ?_⟩
  · have : timeToX 12 = 547 / 2 := by norm_num [timeToX]
    rw [this]
    norm_num [Int.floor_eq_iff]
  · intro h h0 h24
    unfold timeToX
    constructor <;> nlinarith

/-- Witness for C5 at the concrete hour `6`. -/
theorem timeToX_endpoints_witness :
    (0 : ℚ) ≤ 6 ∧ (6 : ℚ) ≤ 24 ∧ (56 ≤ timeToX 6 ∧ timeToX 6 ≤ 491) :=
  ⟨by norm_num, by norm_num, timeToX_endpoints.2.2.2.2 6 (by norm_num) (by norm_num)⟩

/-- C7: the viewer's Total On-Duty summary equals
`totals.driving + totals.on_duty`, a missing key counting as `0` — the
JavaScript `|| 0` fallback coincides with `getD 0` because the fallback
value is `0` itself. -/
theorem total_on_duty_combined (t : TotalsJson) :
    totalOnDutyDisplayed t = t.driving.getD 0 + t.on_duty.getD 0 := by
  have key : ∀ v : Option ℚ, jsOrZero v = v.getD 0 := by
    intro v
    cases v with
    | none => rfl
    | some q =>
      simp only [jsOrZero, Option.getD_some]
      split
      · simp_all
      · rfl
  simp [totalOnDutyDisplayed, key]

/-- C8 counterexample: the leg consumed by the frontend stores meters and
seconds, not miles and hours — for the leg with `distance_meters = 160934`
and `duration_seconds = 7200` the rendered figures are `100` miles and `2`
hours, neither equal to the stored field values. -/
theorem routeLeg_units_not_hours_miles :
    legDetailHours ⟨"Chicago, IL", "Milwaukee, WI", 160934, 7200⟩ = 2 ∧
    (7200 : ℚ) ≠ 2 ∧
    legDetailMiles ⟨"Chicago, IL", "Milwaukee, WI", 160934, 7200⟩ = 100 ∧
    (160934 : ℚ) ≠ 100 := by
  refine ⟨?_, by norm_num, ?_, by norm_num⟩ <;>
    norm_num [legDetailHours, legDetailMiles]

/-- C8 (amended): every leg consumed by the frontend is a record
`{from_location, to_location, distance_meters, duration_seconds}` with
distance in meters and duration in seconds; `RouteMap` converts them for
display by dividing by `1609.34` and `3600`. -/
theorem routeLeg_display_conversion (l : RouteLeg) :
    legDetailHours l * 3600 = l.duration_seconds ∧
      legDetailMiles l * (160934 / 100) = l.distance_meters := by
  unfold legDetailHours legDetailMiles
  constructor <;> field_simp

/-- C9: `ELDLogViewer` renders nothing for a null, undefined or empty
`logs` prop, and for a non-empty `logs` array its initial render displays
the log at index `0`. -/
theorem eldLogViewer_initial_render :
    eldLogViewerInitial none = none ∧
    eldLogViewerInitial (some []) = none ∧
    ∀ (x : LogEntry) (xs : List LogEntry),
      eldLogViewerInitial (some (x :: xs)) = some ⟨xs.length + 1, x⟩ := by
  refine ⟨rfl, rfl, ?_⟩
  intro x xs
  simp [eldLogViewerInitial, eldLogViewer]

/- ## Helper lemmas for the Day Splitter and the break rule -/

theorem eventDurations_snd_sum (e : DutyEvent) (rest : List DutyEvent) :
    ((eventDurations (e :: rest)).map (fun p => p.2)).sum = 24 - e.time := by
  induction rest generalizing e with
  | nil => simp [eventDurations]
  | cons e2 rest' ih =>
    simp only [eventDurations, List.map_cons, List.sum_cons, ih e2]
    ring

theorem filter_status_sum (l : List (DutyStatus × ℚ)) :
    ((l.filter (fun p => p.1 = DutyStatus.off_duty)).map (fun p => p.2)).sum +
      ((l.filter (fun p => p.1 = DutyStatus.sleeper_berth)).map (fun p => p.2)).sum +
      ((l.filter (fun p => p.1 = DutyStatus.driving)).map (fun p => p.2)).sum +
      ((l.filter (fun p => p.1 = DutyStatus.on_duty)).map (fun p => p.2)).sum =
      (l.map (fun p => p.2)).sum := by
  induction l with
  | nil => simp
  | cons p tl ih =>
    obtain ⟨s, d⟩ := p
    cases s <;> simp [List.filter_cons] <;> linarith [ih]

theorem totalDriving_driveFromZero (r : ℚ) :
    totalDriving (driveFromZero r) = max r 0 := by
  induction r using driveFromZero.induct with
  | case1 r h0 =>
    rw [driveFromZero]
    simp [h0, totalDriving]
  | case2 r h0 h8 =>
    have hr : (0 : ℚ) < r := lt_of_not_ge h0
    rw [driveFromZero]
    simp [h0, h8, totalDriving, max_eq_left hr.le]
  | case3 r h0 h8 ih =>
    have h8' : (8 : ℚ) < r := lt_of_not_ge h8
    rw [driveFromZero]
    simp only [h0, h8, dite_false, totalDriving, ih]
    rw [max_eq_left (by linarith : (0 : ℚ) ≤ r - 8),
      max_eq_left (by linarith : (0 : ℚ) ≤ r)]
    ring

theorem runsBounded_driveFromZero (r : ℚ) :
    runsBounded 0 (driveFromZero r) = true := by
  induction r using driveFromZero.induct with
  | case1 r h0 =>
    rw [driveFromZero]
    simp [h0, runsBounded]
  | case2 r h0 h8 =>
    rw [driveFromZero]
    simp [h0, h8, runsBounded]
  | case3 r h0 h8 ih =>
    rw [driveFromZero]
    simp [h0, h8, runsBounded, ih]

theorem runState_shiftDrive (evs : List HosEv) : ∀ st : BreakState,
    (runState st evs).shiftDrive = st.shiftDrive + totalDriving evs := by
  induction evs with
  | nil =>
    intro st
    simp [runState, totalDriving]
  | cons ev rest ih =>
    intro st
    have hstep : runState st (ev :: rest) = runState (stepState st ev) rest := rfl
    rw [hstep, ih (stepState st ev)]
    cases ev with
    | driving d =>
      simp [stepState, totalDriving]
      ring
    | offDuty d =>
      simp [stepState, totalDriving]

theorem totalDriving_driveLeg (sb r : ℚ) :
    totalDriving (driveLeg sb r) = max r 0 := by
  unfold driveLeg
  split
  · rename_i h0
    simp [totalDriving, max_eq_right h0]
  · rename_i h0
    have hr : (0 : ℚ) < r := lt_of_not_ge h0
    split
    · simp [totalDriving, totalDriving_driveFromZero]
    · split
      · simp [totalDriving, max_eq_left hr.le]
      · rename_i hcap hbig
        simp only [totalDriving, totalDriving_driveFromZero]
        rw [max_eq_left (by linarith [lt_of_not_ge hbig] : (0 : ℚ) ≤ r - (8 - sb)),
          max_eq_left hr.le]
        ring

/-- C3: for every produced DaySchedule — a nonempty event list opening at
time `0.0` — the four DayTotals values sum to `24.0` within `1e-6` (here:
exactly). -/
theorem day_totals_sum_24 (e : DutyEvent) (rest : List DutyEvent)
    (h : e.time = 0) :
    |dayTotalsSum (e :: rest) - 24| ≤ 1 / 1000000 := by
  have hsum : dayTotalsSum (e :: rest) = 24 - e.time := by
    unfold dayTotalsSum dayTotal
    rw [filter_status_sum]
    exact eventDurations_snd_sum e rest
  rw [hsum, h]
  norm_num

/-- Witness for C3 on a concrete three-event day. -/
theorem day_totals_sum_24_witness :
    (⟨0, .off_duty, "Chicago, IL", ""⟩ : DutyEvent).time = 0 ∧
      |dayTotalsSum [⟨0, .off_duty, "Chicago, IL", ""⟩,
        ⟨6, .on_duty, "Chicago, IL", "Pre-trip inspection"⟩,
        ⟨7, .driving, "Chicago, IL", ""⟩] - 24| ≤ 1 / 1000000 :=
  ⟨rfl, day_totals_sum_24 ⟨0, .off_duty, "Chicago, IL", ""⟩
    [⟨6, .on_duty, "Chicago, IL", "Pre-trip inspection"⟩,
      ⟨7, .driving, "Chicago, IL", ""⟩] rfl⟩

/-- C4: driving a leg with `driving_since_break_hours = sb` already
accumulated, the emitted timeline never drives more than `8.0` cumulative
hours without an intervening off-duty block of at least `0.5` hours; the
inserted `0.5`-hour OffDuty break resets `driving_since_break_hours` to
`0` while leaving `driving_this_shift_hours` unchanged; and the whole leg's
driving is delivered (`driving_this_shift_hours` grows by exactly the
leg's duration). -/
theorem driving_break_rule (sb sd r : ℚ) :
    runsBounded sb (driveLeg sb r) = true ∧
      stepState ⟨sb, sd⟩ (.offDuty (1 / 2)) = ⟨0, sd⟩ ∧
      (runState ⟨sb, sd⟩ (driveLeg sb r)).shiftDrive = sd + max r 0 := by
  refine ⟨?_, rfl, ?_⟩
  · unfold driveLeg
    split
    · simp [runsBounded]
    · split
      · simp [runsBounded, runsBounded_driveFromZero]
      · split
        · rename_i hcap hfit
          simp [runsBounded]
          linarith
        · rename_i hcap hbig
          simp [runsBounded, runsBounded_driveFromZero]
  · rw [runState_shiftDrive, totalDriving_driveLeg]

/-- C6: each row of the day's event table ends at the next event's start
time — or at `24.0` for the day's last event — and shows a duration equal
to that end time minus the event's own time. -/
theorem eventRow_end_and_duration (evs : List DutyEvent) (i : ℕ)
    (hi : i < evs.length) :
    ((dayRows evs).getD i ⟨0, 0, 0⟩).endTime =
      (match evs.get? (i + 1) with
       | some e2 => e2.time
       | none => (24 : ℚ)) ∧
    ((dayRows evs).getD i ⟨0, 0, 0⟩).duration =
      ((dayRows evs).getD i ⟨0, 0, 0⟩).endTime -
        (evs.getD i ⟨0, .off_duty, "", ""⟩).time := by
  induction evs generalizing i with
  | nil => simp at hi
  | cons e rest ih =>
    cases rest with
    | nil =>
      have h0 : i = 0 := by
        simp at hi
        omega
      subst h0
      simp [dayRows]
    | cons e2 rest' =>
      cases i with
      | zero => simp [dayRows]
      | succ n =>
        have hn : n < (e2 :: rest').length := by
          simpa using hi
        have hrec := ih n hn
        simpa [dayRows] using hrec

/-- Witness for C6 on a concrete two-event day at index `0`. -/
theorem eventRow_end_and_duration_witness :
    0 < ([⟨0, .off_duty, "Chicago, IL", ""⟩,
      ⟨6, .driving, "Chicago, IL", ""⟩] : List DutyEvent).length ∧
    ((dayRows [⟨0, .off_duty, "Chicago, IL", ""⟩,
      ⟨6, .driving, "Chicago, IL", ""⟩]).getD 0 ⟨0, 0, 0⟩).endTime = 6 ∧
    ((dayRows [⟨0, .off_duty, "Chicago, IL", ""⟩,
      ⟨6, .driving, "Chicago, IL", ""⟩]).getD 0 ⟨0, 0, 0⟩).duration = 6 := by
  have h := eventRow_end_and_duration
    [⟨0, .off_duty, "Chicago, IL", ""⟩, ⟨6, .driving, "Chicago, IL", ""⟩] 0
    (by norm_num)
  refine ⟨by norm_num, ?_, ?_⟩
  · simpa using h.1
  · have h2 := h.2
    rw [h.1] at h2
    simpa using h2

/-- C10: for every non-negative `h`, the minutes component of
`formatHours` lies in `[0, 60]`; at `h = 1.999` it is exactly `60` while
the hours component stays `1` — the carry is never folded into the hours
component. -/
theorem formatHours_minutes_bounds :
    (∀ h : ℚ, 0 ≤ h → 0 ≤ formatHoursMins h ∧ formatHoursMins h ≤ 60) ∧
      formatHoursMins (1999 / 1000) = 60 ∧
      formatHoursHrs (1999 / 1000) = 1 := by
  refine ⟨?_, ?_, ?_⟩
  · intro h h0
    unfold formatHoursMins formatHoursHrs jsRound
    have hf0 : (0 : ℚ) ≤ h - ⌊h⌋ := by
      have := Int.floor_le h
      linarith
    have hf1 : h - ⌊h⌋ < 1 := by
      have := Int.lt_floor_add_one h
      linarith
    constructor
    · apply Int.floor_nonneg.mpr
      linarith
    · have harg : (h - ⌊h⌋) * 60 + 1 / 2 < ((61 : ℤ) : ℚ) := by
        push_cast
        linarith
      have := Int.floor_lt.mpr harg
      omega
  · have h1 : ⌊(1999 / 1000 : ℚ)⌋ = 1 := by norm_num
    unfold formatHoursMins formatHoursHrs jsRound
    rw [h1]
    norm_num
  · unfold formatHoursHrs
    norm_num

/-- Witness for C10 at the concrete value `h = 3`. -/
theorem formatHours_minutes_bounds_witness :
    (0 : ℚ) ≤ 3 ∧ (0 ≤ formatHoursMins 3 ∧ formatHoursMins 3 ≤ 60) :=
  ⟨by norm_num, formatHours_minutes_bounds.1 3 (by norm_num)⟩
